import Mathlib

/-!
Shallow embedding of the serverless request gateway in
`api/generate.js` of the cogitate repository.

The handler is modelled as a pure function from
  - the process environment (the two configuration variables),
  - an abstract JSON parser for the service-account key
    (modelling the platform builtin `JSON.parse`: it returns
    `none` exactly when parsing throws),
  - a provider oracle (modelling `model.generateContent`: the network
    call either resolves to a response or rejects with an error message),
  - the inbound request
to an outcome (an HTTP response, or an exception escaping the handler)
together with the list of provider calls the invocation performed.

Possibly-absent JavaScript values (`undefined` fields, an absent body)
are modelled with `Option`.  A JavaScript `TypeError` raised by member
access on `undefined` is modelled by a fixed message-building function;
the exact platform text is irrelevant to every property proved below.
-/

namespace Cogitate

/-- An inline-data part of a provider message or response: base64 payload
plus a MIME type, either field possibly absent. -/
structure InlineData where
  mimeType : Option String
  data : Option String
deriving DecidableEq, Repr

/-- One part of a provider message: text and/or inline data. -/
structure GcPart where
  text : Option String
  inlineData : Option InlineData
deriving DecidableEq, Repr

/-- A content block: a role plus a list of parts. -/
structure GcContent where
  role : String
  parts : List GcPart
deriving DecidableEq, Repr

/-- The generation configuration sent on the image branch. -/
structure GenerationConfig where
  responseModalities : List String
deriving DecidableEq, Repr

/-- The argument object of `model.generateContent`. -/
structure GenRequest where
  contents : List GcContent
  systemInstruction : Option (List GcPart)
  generationConfig : Option GenerationConfig
deriving DecidableEq, Repr

/-- One candidate of a provider response. -/
structure Candidate where
  content : GcContent
deriving DecidableEq, Repr

/-- The provider response object (`resp.response`). -/
structure GenResponse where
  candidates : List Candidate
deriving DecidableEq, Repr

/-- Credentials extracted from the environment: the project id and the
two fields read from the parsed service-account key (either of which the
key JSON may lack). -/
structure Creds where
  projectId : String
  privateKey : Option String
  clientEmail : Option String
deriving DecidableEq, Repr

/-- One provider invocation: the credentials the client was constructed
with, the model name passed to `getGenerativeModel`, and the request. -/
structure ProviderCall where
  creds : Creds
  modelName : String
  request : GenRequest
deriving DecidableEq, Repr

/-- Outcome of the awaited network call: a response, or a rejection
carrying the error message. -/
inductive CallResult where
  | ok (resp : GenResponse)
  | err (message : String)
deriving DecidableEq, Repr

/-- The structured form of the parsed service-account key; either field
may be absent from the JSON object. -/
structure KeyData where
  private_key : Option String
  client_email : Option String
deriving DecidableEq, Repr

/-- The process environment: each variable is a string or unset. -/
structure Env where
  GOOGLE_PROJECT_ID : Option String
  GOOGLE_SERVICE_ACCOUNT_KEY : Option String
deriving DecidableEq, Repr

/-- The request payload object; each field may be absent.  A JavaScript
payload that is not an object at all is modelled by `none` at the use
site (destructuring it throws), an object missing fields by a `Payload`
with `none` fields. -/
structure Payload where
  systemPrompt : Option String
  userQuery : Option String
  prompt : Option String
  base64Data : Option String
deriving DecidableEq, Repr

/-- The parsed request body `{ step, payload }`. -/
structure ReqBody where
  step : Option String
  payload : Option Payload
deriving DecidableEq, Repr

/-- An inbound HTTP request: its method, and its body (`none` models
`req.body` being `undefined` or `null`, on which destructuring throws). -/
structure Req where
  method : String
  body : Option ReqBody
deriving DecidableEq, Repr

/-- The JSON body of a response: empty (`res.end()`), a `text` envelope,
a `base64Image` envelope, or an `error` envelope. -/
inductive RespBody where
  | empty
  | jsonText (text : Option String)
  | jsonImage (base64Image : Option String)
  | jsonError (error : String)
deriving DecidableEq, Repr

/-- An HTTP response: status, headers set on the response object, body. -/
structure HttpResponse where
  status : Nat
  headers : List (String × String)
  body : RespBody
deriving DecidableEq, Repr

/-- What an invocation produces: a response sent to the caller, or an
exception escaping the handler (surfaced by the platform, not by the
handler). -/
inductive HandlerOutcome where
  | response (r : HttpResponse)
  | unhandled (message : String)
deriving DecidableEq, Repr

/-- An invocation outcome together with the provider calls it made. -/
structure HandlerResult where
  outcome : HandlerOutcome
  calls : List ProviderCall
deriving DecidableEq, Repr

/-- The three CORS headers set unconditionally at the top of the
handler. -/
def corsHeaders : List (String × String) :=
  [("Access-Control-Allow-Origin", "*"),
   ("Access-Control-Allow-Methods", "POST, OPTIONS"),
   ("Access-Control-Allow-Headers", "Content-Type")]

/-- The model name passed to `getGenerativeModel` for the text model. -/
def textModelName : String := "gemini-2.5-flash-preview-09-2025"

/-- The model name passed to `getGenerativeModel` for the image model. -/
def imageModelName : String := "imagen-3.0-generate-002"

/-- Models the TypeError message of destructuring an absent `req.body`. -/
def bodyDestructureMsg : String :=
  "Cannot destructure property step of req.body as it is undefined."

/-- Models the TypeError message of destructuring an absent `payload`
inside a branch; `prop` is the first destructured property. -/
def payloadDestructureMsg (prop : String) : String :=
  "Cannot destructure property " ++ prop ++ " of payload as it is undefined."

/-- Models the TypeError message of reading property `prop` of
`undefined` (for example `candidates[0].content` on an empty candidate
list). -/
def readUndefinedMsg (prop : String) : String :=
  "Cannot read properties of undefined (reading " ++ prop ++ ")"

/-- JavaScript string falsiness of an environment variable: it is falsy
when unset or the empty string. -/
def envFalsy (o : Option String) : Bool := o.getD "" = ""

/-- Result of lines 28-44: the credential resolution. -/
inductive CredStatus where
  | missingCreds
  | invalidKey
  | okCreds (creds : Creds)
deriving DecidableEq, Repr

/-- Lines 28-44: read the two environment variables; if either is falsy
fail with missing credentials; otherwise `JSON.parse` the key, failing
with invalid key format when parsing throws, and extract `private_key`
and `client_email`. -/
def resolveCreds (env : Env) (parseKey : String → Option KeyData) : CredStatus :=
  if envFalsy env.GOOGLE_PROJECT_ID || envFalsy env.GOOGLE_SERVICE_ACCOUNT_KEY then
    .missingCreds
  else
    match parseKey (env.GOOGLE_SERVICE_ACCOUNT_KEY.getD "") with
    | none => .invalidKey
    | some kd => .okCreds ⟨env.GOOGLE_PROJECT_ID.getD "", kd.private_key, kd.client_email⟩

/-- The 500 response of the top-level catch: `API Error: <message>`. -/
def apiErrorResp (m : String) : HttpResponse :=
  ⟨500, corsHeaders, .jsonError ("API Error: " ++ m)⟩

/-- The request literal of the `generateText` branch: `userQuery` as the
sole part of the sole user content, `systemPrompt` as the system
instruction. -/
def textGenRequest (systemPrompt userQuery : Option String) : GenRequest :=
  { contents := [{ role := "user", parts := [{ text := userQuery, inlineData := none }] }],
    systemInstruction := some [{ text := systemPrompt, inlineData := none }],
    generationConfig := none }

/-- The request literal of the `generateImage` branch: `prompt` as the
sole part of the sole user content, requesting image modality. -/
def imageGenRequest (prompt : Option String) : GenRequest :=
  { contents := [{ role := "user", parts := [{ text := prompt, inlineData := none }] }],
    systemInstruction := none,
    generationConfig := some { responseModalities := ["IMAGE"] } }

/-- The request literal of the `describeImage` branch: one user content
of two parts, the `systemPrompt` text then an inline PNG attachment
carrying `base64Data`. -/
def describeGenRequest (systemPrompt base64Data : Option String) : GenRequest :=
  { contents := [{ role := "user",
                   parts := [{ text := systemPrompt, inlineData := none },
                             { text := none,
                               inlineData := some { mimeType := some "image/png",
                                                    data := base64Data } }] }],
    systemInstruction := none,
    generationConfig := none }

/-- Lines 80-81 and 122: `resp.response.candidates[0].content.parts[0].text`
with JavaScript member-access semantics: indexing past the end yields
`undefined` and the subsequent member access throws. -/
def firstTextPart (resp : GenResponse) : Except String (Option String) :=
  match resp.candidates.head? with
  | none => .error (readUndefinedMsg "content")
  | some c =>
    match c.content.parts.head? with
    | none => .error (readUndefinedMsg "text")
    | some pt => .ok pt.text

/-- Perform one provider call and extract text as the `generateText` and
`describeImage` cases both do: a rejected call or a throwing extraction
is caught by the surrounding try and answered with the `API Error`
envelope; a successful extraction is answered 200 with `{ text }`. -/
def runTextCall (oracle : ProviderCall → CallResult) (call : ProviderCall) : HandlerResult :=
  match oracle call with
  | .err m => ⟨.response (apiErrorResp m), [call]⟩
  | .ok resp =>
    match firstTextPart resp with
    | .error m => ⟨.response (apiErrorResp m), [call]⟩
    | .ok t => ⟨.response ⟨200, corsHeaders, .jsonText t⟩, [call]⟩

/-- Perform one provider call and extract the first inline-image part of
the first candidate, as the `generateImage` case does (lines 89-103):
when no part carries inline data, the thrown error is caught and
answered with the fixed `No image data returned from Imagen.` message. -/
def runImageCall (oracle : ProviderCall → CallResult) (call : ProviderCall) : HandlerResult :=
  match oracle call with
  | .err m => ⟨.response (apiErrorResp m), [call]⟩
  | .ok resp =>
    match resp.candidates.head? with
    | none => ⟨.response (apiErrorResp (readUndefinedMsg "content")), [call]⟩
    | some c =>
      match c.content.parts.find? (fun q => q.inlineData.isSome) with
      | none => ⟨.response (apiErrorResp "No image data returned from Imagen."), [call]⟩
      | some pt =>
        match pt.inlineData with
        | some i => ⟨.response ⟨200, corsHeaders, .jsonImage i.data⟩, [call]⟩
        | none => ⟨.response (apiErrorResp (readUndefinedMsg "data")), [call]⟩

/-- The `generateText` case of the switch (lines 75-84). -/
def generateTextBranch (creds : Creds) (oracle : ProviderCall → CallResult)
    (payload : Option Payload) : HandlerResult :=
  match payload with
  | none => ⟨.response (apiErrorResp (payloadDestructureMsg "systemPrompt")), []⟩
  | some p =>
    runTextCall oracle ⟨creds, textModelName, textGenRequest p.systemPrompt p.userQuery⟩

/-- The `generateImage` case of the switch (lines 87-104). -/
def generateImageBranch (creds : Creds) (oracle : ProviderCall → CallResult)
    (payload : Option Payload) : HandlerResult :=
  match payload with
  | none => ⟨.response (apiErrorResp (payloadDestructureMsg "prompt")), []⟩
  | some p =>
    runImageCall oracle ⟨creds, imageModelName, imageGenRequest p.prompt⟩

/-- The `describeImage` case of the switch (lines 107-123). -/
def describeImageBranch (creds : Creds) (oracle : ProviderCall → CallResult)
    (payload : Option Payload) : HandlerResult :=
  match payload with
  | none => ⟨.response (apiErrorResp (payloadDestructureMsg "systemPrompt")), []⟩
  | some p =>
    runTextCall oracle ⟨creds, textModelName, describeGenRequest p.systemPrompt p.base64Data⟩

/-- The try/switch block (lines 59-131): dispatch on `step`, with any
throw inside a case caught and surfaced as a 500 `API Error` envelope,
and any other `step` (an unrecognised string, or absent) answered 400. -/
def dispatch (creds : Creds) (oracle : ProviderCall → CallResult)
    (b : ReqBody) : HandlerResult :=
  if b.step = some "generateText" then generateTextBranch creds oracle b.payload
  else if b.step = some "generateImage" then generateImageBranch creds oracle b.payload
  else if b.step = some "describeImage" then describeImageBranch creds oracle b.payload
  else ⟨.response ⟨400, corsHeaders, .jsonError "Invalid step provided"⟩, []⟩

/-- The whole handler of `api/generate.js`: CORS headers on every
response, OPTIONS answered 200 immediately, non-POST answered 405,
credential resolution, then the destructuring of `req.body` (which is
OUTSIDE the try block: an absent body throws out of the handler), then
the guarded dispatch. -/
def handler (env : Env) (parseKey : String → Option KeyData)
    (oracle : ProviderCall → CallResult) (req : Req) : HandlerResult :=
  if req.method = "OPTIONS" then
    ⟨.response ⟨200, corsHeaders, .empty⟩, []⟩
  else if req.method ≠ "POST" then
    ⟨.response ⟨405, corsHeaders, .jsonError "Method Not Allowed"⟩, []⟩
  else
    match resolveCreds env parseKey with
    | .missingCreds =>
      ⟨.response ⟨500, corsHeaders,
        .jsonError "Server configuration error. Missing API credentials."⟩, []⟩
    | .invalidKey =>
      ⟨.response ⟨500, corsHeaders,
        .jsonError "Server configuration error. Invalid service account key format."⟩, []⟩
    | .okCreds creds =>
      match req.body with
      | none => ⟨.unhandled bodyDestructureMsg, []⟩
      | some b => dispatch creds oracle b

/-! Concrete fixtures used by the witnesses below. -/

/-- A well-formed environment. -/
def envGood : Env := ⟨some "proj", some "KEY"⟩

/-- The parsed form of the good service-account key. -/
def kdGood : KeyData := ⟨some "PK", some "EMAIL"⟩

/-- A parse function accepting exactly the two keys of the fixtures. -/
def pkGood : String → Option KeyData :=
  fun s => if s = "KEY" then some kdGood else if s = "KEY2" then some ⟨some "PK2", some "EMAIL2"⟩ else none

/-- The credentials `envGood` resolves to. -/
def credsGood : Creds := ⟨"proj", some "PK", some "EMAIL"⟩

/-- A second well-formed environment, with different credentials. -/
def env2Good : Env := ⟨some "proj2", some "KEY2"⟩

/-- A provider response whose first candidate carries the text `hello`. -/
def respHello : GenResponse := ⟨[⟨⟨"model", [⟨some "hello", none⟩]⟩⟩]⟩

/-- An oracle resolving every call with `respHello`. -/
def oracleHello : ProviderCall → CallResult := fun _ => .ok respHello

/-- A provider response whose first candidate carries one inline image. -/
def respImage : GenResponse :=
  ⟨[⟨⟨"model", [⟨none, some ⟨some "image/png", some "IMGBYTES"⟩⟩]⟩⟩]⟩

/-- An oracle resolving every call with `respImage`. -/
def oracleImage : ProviderCall → CallResult := fun _ => .ok respImage

/-- An oracle rejecting every call with the message `boom`. -/
def oracleBoom : ProviderCall → CallResult := fun _ => .err "boom"

/-- A payload for the `generateText` branch. -/
def payloadSQ : Payload := ⟨some "S", some "Q", none, none⟩

/-- A payload for the `generateImage` branch. -/
def payloadP : Payload := ⟨none, none, some "P", none⟩

/-- A payload for the `describeImage` branch. -/
def payloadSB : Payload := ⟨some "Describe", none, none, some "BYTES"⟩

/-- C1: for every POST with valid credentials, step `generateText` and a
payload carrying `systemPrompt = S` and `userQuery = Q`, the handler
performs exactly one provider call — to the text model, with `S` as the
system-level instruction and `Q` as the sole part of the sole user
message — and when that call resolves with a first candidate whose first
part carries text `T`, it responds 200 with body `{ text : T }`. -/
theorem C1_generateText_correct
    (env : Env) (pk : String → Option KeyData) (oracle : ProviderCall → CallResult)
    (creds : Creds) (p : Payload) (S Q T : String) (resp : GenResponse)
    (c : Candidate) (cs : List Candidate) (pt : GcPart) (pts : List GcPart)
    (hcreds : resolveCreds env pk = .okCreds creds)
    (hS : p.systemPrompt = some S) (hQ : p.userQuery = some Q)
    (hcall : oracle ⟨creds, textModelName, textGenRequest (some S) (some Q)⟩ = .ok resp)
    (hcand : resp.candidates = c :: cs)
    (hparts : c.content.parts = pt :: pts)
    (htext : pt.text = some T) :
    handler env pk oracle ⟨"POST", some ⟨some "generateText", some p⟩⟩ =
      ⟨.response ⟨200, corsHeaders, .jsonText (some T)⟩,
       [⟨creds, textModelName,
         ⟨[⟨"user", [⟨some Q, none⟩]⟩], some [⟨some S, none⟩], none⟩⟩]⟩ := by
  have hcall2 : oracle ⟨creds, textModelName,
      ⟨[⟨"user", [⟨some Q, none⟩]⟩], some [⟨some S, none⟩], none⟩⟩ = .ok resp := hcall
  simp [handler, hcreds, dispatch, generateTextBranch, runTextCall, hS, hQ,
    textGenRequest, hcall2, firstTextPart, hcand, hparts, htext]

/-- Witness for C1 at a concrete environment, oracle and request. -/
theorem C1_witness :
    handler envGood pkGood oracleHello ⟨"POST", some ⟨some "generateText", some payloadSQ⟩⟩ =
      ⟨.response ⟨200, corsHeaders, .jsonText (some "hello")⟩,
       [⟨credsGood, textModelName,
         ⟨[⟨"user", [⟨some "Q", none⟩]⟩], some [⟨some "S", none⟩], none⟩⟩]⟩ :=
  C1_generateText_correct envGood pkGood oracleHello credsGood payloadSQ "S" "Q" "hello"
    respHello ⟨⟨"model", [⟨some "hello", none⟩]⟩⟩ [] ⟨some "hello", none⟩ []
    (by decide) rfl rfl rfl rfl rfl rfl

/-- C2: for every POST with valid credentials, step `generateImage` and
a payload carrying `prompt = P`, the handler performs exactly one
provider call — to the image model, with `P` as the sole part of the
sole user message and `responseModalities = [IMAGE]` — and, when the
call resolves: if the first candidate holds a first inline-image part it
responds 200 with `{ base64Image }` carrying that part's data, and if no
part of the first candidate holds inline data it responds 500 with
`{ error : API Error: No image data returned from Imagen. }`. -/
theorem C2_generateImage_correct
    (env : Env) (pk : String → Option KeyData) (oracle : ProviderCall → CallResult)
    (creds : Creds) (p : Payload) (P : String) (resp : GenResponse)
    (c : Candidate) (cs : List Candidate)
    (hcreds : resolveCreds env pk = .okCreds creds)
    (hP : p.prompt = some P)
    (hcall : oracle ⟨creds, imageModelName, imageGenRequest (some P)⟩ = .ok resp)
    (hcand : resp.candidates = c :: cs) :
    (∀ pt i, c.content.parts.find? (fun q => q.inlineData.isSome) = some pt →
       pt.inlineData = some i →
       handler env pk oracle ⟨"POST", some ⟨some "generateImage", some p⟩⟩ =
         ⟨.response ⟨200, corsHeaders, .jsonImage i.data⟩,
          [⟨creds, imageModelName,
            ⟨[⟨"user", [⟨some P, none⟩]⟩], none, some ⟨["IMAGE"]⟩⟩⟩]⟩)
    ∧ (c.content.parts.find? (fun q => q.inlineData.isSome) = none →
       handler env pk oracle ⟨"POST", some ⟨some "generateImage", some p⟩⟩ =
         ⟨.response ⟨500, corsHeaders,
            .jsonError "API Error: No image data returned from Imagen."⟩,
          [⟨creds, imageModelName,
            ⟨[⟨"user", [⟨some P, none⟩]⟩], none, some ⟨["IMAGE"]⟩⟩⟩]⟩) := by
  have hcall2 : oracle ⟨creds, imageModelName,
      ⟨[⟨"user", [⟨some P, none⟩]⟩], none, some ⟨["IMAGE"]⟩⟩⟩ = .ok resp := hcall
  constructor
  · intro pt i hfind hinline
    simp [handler, hcreds, dispatch, generateImageBranch, runImageCall, hP,
      imageGenRequest, hcall2, hcand, hfind, hinline, apiErrorResp]
  · intro hfind
    simp [handler, hcreds, dispatch, generateImageBranch, runImageCall, hP,
      imageGenRequest, hcall2, hcand, hfind, apiErrorResp]

/-- Witness for C2 at a concrete environment, oracle and request: the
success side with an inline-image response, and the failure side with a
text-only response. -/
theorem C2_witness :
    handler envGood pkGood oracleImage ⟨"POST", some ⟨some "generateImage", some payloadP⟩⟩ =
      ⟨.response ⟨200, corsHeaders, .jsonImage (some "IMGBYTES")⟩,
       [⟨credsGood, imageModelName,
         ⟨[⟨"user", [⟨some "P", none⟩]⟩], none, some ⟨["IMAGE"]⟩⟩⟩]⟩ ∧
    handler envGood pkGood oracleHello ⟨"POST", some ⟨some "generateImage", some payloadP⟩⟩ =
      ⟨.response ⟨500, corsHeaders,
         .jsonError "API Error: No image data returned from Imagen."⟩,
       [⟨credsGood, imageModelName,
         ⟨[⟨"user", [⟨some "P", none⟩]⟩], none, some ⟨["IMAGE"]⟩⟩⟩]⟩ :=
  ⟨(C2_generateImage_correct envGood pkGood oracleImage credsGood payloadP "P"
      respImage ⟨⟨"model", [⟨none, some ⟨some "image/png", some "IMGBYTES"⟩⟩]⟩⟩ []
      (by decide) rfl rfl rfl).1
      ⟨none, some ⟨some "image/png", some "IMGBYTES"⟩⟩ ⟨some "image/png", some "IMGBYTES"⟩
      (by decide) rfl,
   (C2_generateImage_correct envGood pkGood oracleHello credsGood payloadP "P"
      respHello ⟨⟨"model", [⟨some "hello", none⟩]⟩⟩ []
      (by decide) rfl rfl rfl).2 (by decide)⟩

/-- C3: for every POST with valid credentials, step `describeImage` and
a payload carrying `systemPrompt = S` and `base64Data = B`, the handler
performs exactly one provider call — to the text model, with a single
user message of exactly two parts: the text `S`, then an inline
attachment of MIME type `image/png` carrying `B` — and when that call
resolves with a first candidate whose first part carries text `T`, it
responds 200 with body `{ text : T }`. -/
theorem C3_describeImage_correct
    (env : Env) (pk : String → Option KeyData) (oracle : ProviderCall → CallResult)
    (creds : Creds) (p : Payload) (S B T : String) (resp : GenResponse)
    (c : Candidate) (cs : List Candidate) (pt : GcPart) (pts : List GcPart)
    (hcreds : resolveCreds env pk = .okCreds creds)
    (hS : p.systemPrompt = some S) (hB : p.base64Data = some B)
    (hcall : oracle ⟨creds, textModelName, describeGenRequest (some S) (some B)⟩ = .ok resp)
    (hcand : resp.candidates = c :: cs)
    (hparts : c.content.parts = pt :: pts)
    (htext : pt.text = some T) :
    handler env pk oracle ⟨"POST", some ⟨some "describeImage", some p⟩⟩ =
      ⟨.response ⟨200, corsHeaders, .jsonText (some T)⟩,
       [⟨creds, textModelName,
         ⟨[⟨"user", [⟨some S, none⟩, ⟨none, some ⟨some "image/png", some B⟩⟩]⟩],
          none, none⟩⟩]⟩ := by
  have hcall2 : oracle ⟨creds, textModelName,
      ⟨[⟨"user", [⟨some S, none⟩, ⟨none, some ⟨some "image/png", some B⟩⟩]⟩],
       none, none⟩⟩ = .ok resp := hcall
  simp [handler, hcreds, dispatch, describeImageBranch, runTextCall, hS, hB,
    describeGenRequest, hcall2, firstTextPart, hcand, hparts, htext]

/-- Witness for C3 at a concrete environment, oracle and request. -/
theorem C3_witness :
    handler envGood pkGood oracleHello ⟨"POST", some ⟨some "describeImage", some payloadSB⟩⟩ =
      ⟨.response ⟨200, corsHeaders, .jsonText (some "hello")⟩,
       [⟨credsGood, textModelName,
         ⟨[⟨"user", [⟨some "Describe", none⟩,
                     ⟨none, some ⟨some "image/png", some "BYTES"⟩⟩]⟩],
          none, none⟩⟩]⟩ :=
  C3_describeImage_correct envGood pkGood oracleHello credsGood payloadSB
    "Describe" "BYTES" "hello"
    respHello ⟨⟨"model", [⟨some "hello", none⟩]⟩⟩ [] ⟨some "hello", none⟩ []
    (by decide) rfl rfl rfl rfl rfl rfl

/-- C4: for every POST, when either environment variable is missing
(falsy) the handler answers 500 with the missing-credentials message,
whatever the body and whatever the provider would do, performing no
provider call; and when both are set but the key does not parse, it
answers 500 with the invalid-key-format message, again for every body
and with no provider call.  The quantification over `body` and `oracle`
and the empty call list express that credential resolution precedes step
dispatch and any provider call. -/
theorem C4_credential_errors
    (env : Env) (pk : String → Option KeyData) (oracle : ProviderCall → CallResult)
    (body : Option ReqBody) :
    ((envFalsy env.GOOGLE_PROJECT_ID || envFalsy env.GOOGLE_SERVICE_ACCOUNT_KEY) = true →
      handler env pk oracle ⟨"POST", body⟩ =
        ⟨.response ⟨500, corsHeaders,
           .jsonError "Server configuration error. Missing API credentials."⟩, []⟩)
    ∧ (∀ k, env.GOOGLE_SERVICE_ACCOUNT_KEY = some k →
        (envFalsy env.GOOGLE_PROJECT_ID || envFalsy env.GOOGLE_SERVICE_ACCOUNT_KEY) = false →
        pk k = none →
        handler env pk oracle ⟨"POST", body⟩ =
          ⟨.response ⟨500, corsHeaders,
             .jsonError "Server configuration error. Invalid service account key format."⟩, []⟩) := by
  constructor
  · intro h
    simp [handler, resolveCreds, h]
  · intro k hk hfalsy hpk
    simp only [Bool.or_eq_false_iff] at hfalsy
    obtain ⟨hf1, hf2⟩ := hfalsy
    rw [hk] at hf2
    simp [handler, resolveCreds, hf1, hf2, hk, hpk]

/-- Witness for C4 at two concrete environments: one with the project id
unset, one whose key does not parse. -/
theorem C4_witness :
    handler ⟨none, some "KEY"⟩ pkGood oracleHello ⟨"POST", some ⟨some "generateText", some payloadSQ⟩⟩ =
      ⟨.response ⟨500, corsHeaders,
         .jsonError "Server configuration error. Missing API credentials."⟩, []⟩ ∧
    handler ⟨some "proj", some "NOTJSON"⟩ pkGood oracleHello ⟨"POST", some ⟨some "generateText", some payloadSQ⟩⟩ =
      ⟨.response ⟨500, corsHeaders,
         .jsonError "Server configuration error. Invalid service account key format."⟩, []⟩ :=
  ⟨(C4_credential_errors ⟨none, some "KEY"⟩ pkGood oracleHello
      (some ⟨some "generateText", some payloadSQ⟩)).1 (by decide),
   (C4_credential_errors ⟨some "proj", some "NOTJSON"⟩ pkGood oracleHello
      (some ⟨some "generateText", some payloadSQ⟩)).2 "NOTJSON" rfl (by decide) (by decide)⟩

/-- C7: for every POST with valid credentials whose step is a string
other than the three recognised ones, the handler answers 400 with
`{ error : Invalid step provided }`, for every payload, with no provider
call. -/
theorem C7_invalid_step
    (env : Env) (pk : String → Option KeyData) (oracle : ProviderCall → CallResult)
    (creds : Creds) (s : String) (payload : Option Payload)
    (hcreds : resolveCreds env pk = .okCreds creds)
    (h1 : s ≠ "generateText") (h2 : s ≠ "generateImage") (h3 : s ≠ "describeImage") :
    handler env pk oracle ⟨"POST", some ⟨some s, payload⟩⟩ =
      ⟨.response ⟨400, corsHeaders, .jsonError "Invalid step provided"⟩, []⟩ := by
  simp [handler, hcreds, dispatch, h1, h2, h3]

/-- Witness for C7 at the step `bogus`. -/
theorem C7_witness :
    handler envGood pkGood oracleHello ⟨"POST", some ⟨some "bogus", some payloadSQ⟩⟩ =
      ⟨.response ⟨400, corsHeaders, .jsonError "Invalid step provided"⟩, []⟩ :=
  C7_invalid_step envGood pkGood oracleHello credsGood "bogus" (some payloadSQ)
    (by decide) (by decide) (by decide) (by decide)

/-- C8: for every request whose method is neither POST nor OPTIONS, the
handler answers 405 with `{ error : Method Not Allowed }`, for every
environment, parse function, oracle and body. -/
theorem C8_method_not_allowed
    (env : Env) (pk : String → Option KeyData) (oracle : ProviderCall → CallResult)
    (m : String) (body : Option ReqBody)
    (h1 : m ≠ "POST") (h2 : m ≠ "OPTIONS") :
    handler env pk oracle ⟨m, body⟩ =
      ⟨.response ⟨405, corsHeaders, .jsonError "Method Not Allowed"⟩, []⟩ := by
  simp [handler, h1, h2]

/-- Witness for C8 at the method GET. -/
theorem C8_witness :
    handler envGood pkGood oracleHello ⟨"GET", some ⟨some "generateText", some payloadSQ⟩⟩ =
      ⟨.response ⟨405, corsHeaders, .jsonError "Method Not Allowed"⟩, []⟩ :=
  C8_method_not_allowed envGood pkGood oracleHello "GET"
    (some ⟨some "generateText", some payloadSQ⟩) (by decide) (by decide)

/-- Helper: whenever the request body is present, the handler produces a
response (no exception escapes): every path after the body destructuring
ends in a response. -/
theorem handler_body_responds (env : Env) (pk : String → Option KeyData)
    (oracle : ProviderCall → CallResult) (meth : String) (b : ReqBody) :
    ∃ r, (handler env pk oracle ⟨meth, some b⟩).outcome = .response r := by
  unfold handler dispatch generateTextBranch generateImageBranch describeImageBranch
    runTextCall runImageCall
  dsimp only
  repeat' split
  all_goals exact ⟨_, rfl⟩

/-- Helper: every response the handler produces carries the CORS
headers. -/
theorem handler_headers_cors (env : Env) (pk : String → Option KeyData)
    (oracle : ProviderCall → CallResult) (req : Req) (r : HttpResponse)
    (h : (handler env pk oracle req).outcome = .response r) :
    r.headers = corsHeaders := by
  unfold handler dispatch generateTextBranch generateImageBranch describeImageBranch
    runTextCall runImageCall apiErrorResp at h
  repeat' split at h
  all_goals first
    | (cases h; rfl)
    | simp_all

/-- C9: every response the handler produces — success, rejection or
error — carries the three permissive CORS headers, and every OPTIONS
request is answered 200 immediately with an empty body and no provider
call. -/
theorem C9_cors_and_preflight (env : Env) (pk : String → Option KeyData)
    (oracle : ProviderCall → CallResult) (req : Req) :
    (∀ r, (handler env pk oracle req).outcome = .response r → r.headers = corsHeaders)
    ∧ (req.method = "OPTIONS" →
        handler env pk oracle req = ⟨.response ⟨200, corsHeaders, .empty⟩, []⟩) := by
  constructor
  · intro r h
    exact handler_headers_cors env pk oracle req r h
  · intro h
    simp [handler, h]

/-- Witness for C9 at a concrete OPTIONS request. -/
theorem C9_witness :
    handler envGood pkGood oracleHello ⟨"OPTIONS", none⟩ =
      ⟨.response ⟨200, corsHeaders, .empty⟩, []⟩ ∧
    (⟨200, corsHeaders, RespBody.empty⟩ : HttpResponse).headers = corsHeaders :=
  ⟨(C9_cors_and_preflight envGood pkGood oracleHello ⟨"OPTIONS", none⟩).2 rfl,
   (C9_cors_and_preflight envGood pkGood oracleHello ⟨"OPTIONS", none⟩).1
     ⟨200, corsHeaders, .empty⟩ (by decide)⟩

/-- Helper: the text-call runner's outcome is unchanged when the
credentials inside the call change, provided the oracle answers both
calls alike. -/
theorem runTextCall_outcome_ext (oracle : ProviderCall → CallResult)
    (c1 c2 : Creds) (mn : String) (gr : GenRequest)
    (hor : oracle ⟨c1, mn, gr⟩ = oracle ⟨c2, mn, gr⟩) :
    (runTextCall oracle ⟨c1, mn, gr⟩).outcome = (runTextCall oracle ⟨c2, mn, gr⟩).outcome := by
  unfold runTextCall
  rw [hor]
  cases oracle ⟨c2, mn, gr⟩ with
  | err m => rfl
  | ok resp =>
    dsimp only
    cases firstTextPart resp <;> rfl

/-- Helper: the image-call runner's outcome is unchanged when the
credentials inside the call change, provided the oracle answers both
calls alike. -/
theorem runImageCall_outcome_ext (oracle : ProviderCall → CallResult)
    (c1 c2 : Creds) (mn : String) (gr : GenRequest)
    (hor : oracle ⟨c1, mn, gr⟩ = oracle ⟨c2, mn, gr⟩) :
    (runImageCall oracle ⟨c1, mn, gr⟩).outcome = (runImageCall oracle ⟨c2, mn, gr⟩).outcome := by
  unfold runImageCall
  rw [hor]
  cases oracle ⟨c2, mn, gr⟩ with
  | err m => rfl
  | ok resp =>
    dsimp only
    cases resp.candidates.head? with
    | none => rfl
    | some c =>
      dsimp only
      cases c.content.parts.find? (fun q => q.inlineData.isSome) with
      | none => rfl
      | some pt =>
        dsimp only
        cases pt.inlineData <;> rfl

/-- Helper: the dispatch outcome is unchanged when the credentials
change, provided the oracle answers matching calls alike. -/
theorem dispatch_outcome_ext (c1 c2 : Creds) (oracle : ProviderCall → CallResult)
    (b : ReqBody)
    (hor : ∀ mn gr, oracle ⟨c1, mn, gr⟩ = oracle ⟨c2, mn, gr⟩) :
    (dispatch c1 oracle b).outcome = (dispatch c2 oracle b).outcome := by
  unfold dispatch
  by_cases h1 : b.step = some "generateText"
  · simp only [if_pos h1]
    unfold generateTextBranch
    cases b.payload with
    | none => rfl
    | some p => exact runTextCall_outcome_ext oracle c1 c2 _ _ (hor _ _)
  · simp only [if_neg h1]
    by_cases h2 : b.step = some "generateImage"
    · simp only [if_pos h2]
      unfold generateImageBranch
      cases b.payload with
      | none => rfl
      | some p => exact runImageCall_outcome_ext oracle c1 c2 _ _ (hor _ _)
    · simp only [if_neg h2]
      by_cases h3 : b.step = some "describeImage"
      · simp only [if_pos h3]
        unfold describeImageBranch
        cases b.payload with
        | none => rfl
        | some p => exact runTextCall_outcome_ext oracle c1 c2 _ _ (hor _ _)
      · simp only [if_neg h3]

/-- C6: a noninterference statement — the credential values influence
the outcome only through the opaque provider call.  For any two
environments whose credential resolution has the same status, and any
oracle that answers matching calls under the two credential sets alike,
the handler outcome is identical; in particular no success or error
envelope echoes the project id, client email or private key. -/
theorem C6_no_credential_echo
    (env1 env2 : Env) (pk : String → Option KeyData)
    (oracle : ProviderCall → CallResult) (req : Req)
    (hmiss : resolveCreds env1 pk = .missingCreds ↔ resolveCreds env2 pk = .missingCreds)
    (hinv : resolveCreds env1 pk = .invalidKey ↔ resolveCreds env2 pk = .invalidKey)
    (hagree : ∀ c1 c2, resolveCreds env1 pk = .okCreds c1 → resolveCreds env2 pk = .okCreds c2 →
        ∀ mn gr, oracle ⟨c1, mn, gr⟩ = oracle ⟨c2, mn, gr⟩) :
    (handler env1 pk oracle req).outcome = (handler env2 pk oracle req).outcome := by
  unfold handler
  by_cases hopt : req.method = "OPTIONS"
  · simp [hopt]
  · by_cases hpost : req.method = "POST"
    · simp only [if_neg hopt, hpost, ne_eq, not_true_eq_false, if_false]
      cases h1 : resolveCreds env1 pk with
      | missingCreds => rw [hmiss.mp h1]
      | invalidKey => rw [hinv.mp h1]
      | okCreds c1 =>
        cases h2 : resolveCreds env2 pk with
        | missingCreds => exact absurd (hmiss.mpr h2) (by simp [h1])
        | invalidKey => exact absurd (hinv.mpr h2) (by simp [h1])
        | okCreds c2 =>
          cases hb : req.body with
          | none => rfl
          | some b => exact dispatch_outcome_ext c1 c2 oracle b (hagree c1 c2 h1 h2)
    · simp [hopt, hpost]

/-- Witness for C6 at two concrete environments holding different
credentials, with a credential-blind oracle. -/
theorem C6_witness :
    (handler envGood pkGood oracleHello ⟨"POST", some ⟨some "generateText", some payloadSQ⟩⟩).outcome =
    (handler env2Good pkGood oracleHello ⟨"POST", some ⟨some "generateText", some payloadSQ⟩⟩).outcome :=
  C6_no_credential_echo envGood env2Good pkGood oracleHello
    ⟨"POST", some ⟨some "generateText", some payloadSQ⟩⟩
    (by decide) (by decide) (fun _ _ _ _ _ _ => rfl)

/-- C5 counterexample: a POST with valid credentials whose body is
absent reaches the destructuring of req.body, which sits OUTSIDE the try
block (line 57); the TypeError escapes the handler instead of being
converted to a JSON error envelope, so the claim that every failure is
caught fails at this input. -/
theorem C5_counterexample :
    (handler envGood pkGood oracleHello ⟨"POST", none⟩).outcome =
      .unhandled bodyDestructureMsg := by decide

/-- C5 (amended): for every request whose body is present — whatever the
environment, the parse function and the provider behaviour, rejecting or
resolving, well-formed or malformed — the handler produces exactly one
response and lets no exception escape; and any error raised by the
provider call is surfaced as HTTP 500 with an `API Error: <message>`
envelope.  (The unamended claim fails only on requests with an absent
body, whose destructuring sits outside the try block.) -/
theorem C5_amended_catch_all
    (env : Env) (pk : String → Option KeyData) (oracle : ProviderCall → CallResult)
    (meth m : String) (b : ReqBody) (creds : Creds) (p : Payload) (s : String) :
    (∃ r, (handler env pk oracle ⟨meth, some b⟩).outcome = .response r)
    ∧ ((∀ call, oracle call = .err m) →
       meth = "POST" → resolveCreds env pk = .okCreds creds → b.step = some s →
       s = "generateText" ∨ s = "generateImage" ∨ s = "describeImage" →
       b.payload = some p →
       (handler env pk oracle ⟨meth, some b⟩).outcome = .response (apiErrorResp m)) := by
  constructor
  · exact handler_body_responds env pk oracle meth b
  · intro horacle hmeth hcreds hs hrec hp
    subst hmeth
    rcases hrec with h | h | h <;> subst h <;>
      simp [handler, hcreds, dispatch, hs, hp, generateTextBranch, generateImageBranch,
        describeImageBranch, runTextCall, runImageCall, horacle]

/-- Witness for the amended C5: a rejecting provider call is surfaced as
the `API Error` envelope at a concrete request, discharging every
hypothesis of the amended theorem. -/
theorem C5_amended_witness :
    (handler envGood pkGood oracleBoom
       ⟨"POST", some ⟨some "generateText", some payloadSQ⟩⟩).outcome =
      .response (apiErrorResp "boom") :=
  (C5_amended_catch_all envGood pkGood oracleBoom "POST" "boom"
    ⟨some "generateText", some payloadSQ⟩ credsGood payloadSQ "generateText").2
    (fun _ => rfl) rfl (by decide) rfl (Or.inl rfl) rfl

/-- Helper: responses of the text-call runner have status 200 or 500. -/
theorem runTextCall_status (oracle : ProviderCall → CallResult) (call : ProviderCall)
    (r : HttpResponse) (h : (runTextCall oracle call).outcome = .response r) :
    r.status = 200 ∨ r.status = 500 := by
  unfold runTextCall at h
  repeat' split at h
  all_goals (cases h; simp [apiErrorResp])

/-- Helper: responses of the image-call runner have status 200 or 500. -/
theorem runImageCall_status (oracle : ProviderCall → CallResult) (call : ProviderCall)
    (r : HttpResponse) (h : (runImageCall oracle call).outcome = .response r) :
    r.status = 200 ∨ r.status = 500 := by
  unfold runImageCall at h
  repeat' split at h
  all_goals (cases h; simp [apiErrorResp])

/-- C10: the handler performs no payload-shape validation.  For every
POST with valid credentials and a recognised step: when the payload is
absent the in-branch destructuring throws, the top-level catch answers
500 with an `API Error: <message>` envelope and no provider call is
made; and whatever the payload and the provider outcome, the response is
never a 400 client error (its status is 200 or 500). -/
theorem C10_no_payload_validation
    (env : Env) (pk : String → Option KeyData) (oracle : ProviderCall → CallResult)
    (creds : Creds) (b : ReqBody) (s : String)
    (hcreds : resolveCreds env pk = .okCreds creds)
    (hs : b.step = some s)
    (hrec : s = "generateText" ∨ s = "generateImage" ∨ s = "describeImage") :
    (b.payload = none →
      ∃ m, handler env pk oracle ⟨"POST", some b⟩ =
        ⟨.response (apiErrorResp m), []⟩)
    ∧ (∀ r, (handler env pk oracle ⟨"POST", some b⟩).outcome = .response r →
        r.status ≠ 400) := by
  constructor
  · intro hp
    rcases hrec with h | h | h <;> subst h
    · exact ⟨payloadDestructureMsg "systemPrompt",
        by simp [handler, hcreds, dispatch, hs, hp, generateTextBranch]⟩
    · exact ⟨payloadDestructureMsg "prompt",
        by simp [handler, hcreds, dispatch, hs, hp, generateImageBranch]⟩
    · exact ⟨payloadDestructureMsg "systemPrompt",
        by simp [handler, hcreds, dispatch, hs, hp, describeImageBranch]⟩
  · intro r h
    have hstat : r.status = 200 ∨ r.status = 500 := by
      rcases hrec with hx | hx | hx <;> subst hx <;>
        simp only [handler, hcreds, dispatch, hs] at h
      · simp only [↓reduceIte] at h
        unfold generateTextBranch at h
        rcases hb : b.payload with _ | p <;> rw [hb] at h
        · simp only [] at h
          cases h
          simp [apiErrorResp]
        · exact runTextCall_status oracle _ r h
      · simp only [↓reduceIte] at h
        unfold generateImageBranch at h
        rcases hb : b.payload with _ | p <;> rw [hb] at h
        · simp only [] at h
          cases h
          simp [apiErrorResp]
        · exact runImageCall_status oracle _ r h
      · simp only [↓reduceIte] at h
        unfold describeImageBranch at h
        rcases hb : b.payload with _ | p <;> rw [hb] at h
        · simp only [] at h
          cases h
          simp [apiErrorResp]
        · exact runTextCall_status oracle _ r h
    rcases hstat with hx | hx <;> simp [hx]

/-- Witness for C10: with payload absent the concrete response is the
500 destructuring envelope, whose status is not 400. -/
theorem C10_witness :
    (⟨500, corsHeaders,
       RespBody.jsonError ("API Error: " ++ payloadDestructureMsg "systemPrompt")⟩ :
      HttpResponse).status ≠ 400 :=
  (C10_no_payload_validation envGood pkGood oracleHello credsGood
    ⟨some "generateText", none⟩ "generateText" (by decide) rfl (Or.inl rfl)).2
    ⟨500, corsHeaders,
      RespBody.jsonError ("API Error: " ++ payloadDestructureMsg "systemPrompt")⟩
    (by decide)

end Cogitate
